import Mathlib

/-!
Shallow embedding of the OpenThread Channel Manager
(`src/core/utils/channel_manager.cpp`) and proofs about its
channel-selection policy and migration state machine.

The manager's own state (`ChannelManager`) and every operation of the
`.cpp` file are translated directly.  Collaborators that live outside the
translated file (MAC, MLE, ChannelMonitor, the random source and the
dataset updater's immediate return value) are read-only oracles gathered
in `Env`, and the single owned millisecond timer is modelled explicitly.
-/

/-- Errors of the `otError` enumeration used by the channel manager. -/
inductive OtError where
  | OT_ERROR_NONE
  | OT_ERROR_BUSY
  | OT_ERROR_NO_BUFS
  | OT_ERROR_INVALID_STATE
  | OT_ERROR_INVALID_ARGS
  | OT_ERROR_NOT_FOUND
  | OT_ERROR_ALREADY
  | OT_ERROR_FAILED
deriving DecidableEq, Repr

deriving instance DecidableEq for Except

/-- The channel manager's state machine states (`kStateIdle`,
`kStateChangeRequested`, `kStateChangeInProgress`). -/
inductive CmState where
  | kStateIdle
  | kStateChangeRequested
  | kStateChangeInProgress
deriving DecidableEq, Repr

/-- Modelled from the spec: `Time::SecToMsec` (seconds to milliseconds);
the time helpers live outside the translated file. -/
def SecToMsec (aSeconds : Nat) : Nat := aSeconds * 1000

/-- Modelled from the spec: `Time::MsecToSec` (milliseconds to seconds). -/
def MsecToSec (aMilliseconds : Nat) : Nat := aMilliseconds / 1000

/-- Modelled from the spec: `MIN_DELAY`, the minimum migration delay in
seconds (`kMinimumDelay`, typical value 120); the constant's definition is
in the header, outside the translated file. -/
def kMinimumDelay : Nat := 120

/-- Modelled from the spec: `START_JITTER_MS` upper bound
(`kRequestStartJitterInterval`), implementation-defined. -/
def kRequestStartJitterInterval : Nat := 10000

/-- Modelled from the spec: `PENDING_DATASET_TX_RETRY_INTERVAL`
(`kPendingDatasetTxRetryInterval`), implementation-defined. -/
def kPendingDatasetTxRetryInterval : Nat := 20000

/-- Modelled from the spec: `CHANGE_CHECK_WAIT_INTERVAL`
(`kChangeCheckWaitInterval`), implementation-defined. -/
def kChangeCheckWaitInterval : Nat := 30000

/-- Modelled from the spec: `MIN_SAMPLES`
(`kMinChannelMonitorSampleCount`), implementation-defined. -/
def kMinChannelMonitorSampleCount : Nat := 500

/-- Modelled from the spec: `THRESHOLD_TO_SKIP_FAVORED`
(`kThresholdToSkipFavored`), implementation-defined. -/
def kThresholdToSkipFavored : Nat := 0x7000

/-- Modelled from the spec: `THRESHOLD_TO_CHANGE_CHANNEL`
(`kThresholdToChangeChannel`), implementation-defined. -/
def kThresholdToChangeChannel : Nat := 0x2800

/-- Modelled from the spec: `CCA_FAILURE_RATE_THRESHOLD`
(`kCcaFailureRateThreshold`), implementation-defined. -/
def kCcaFailureRateThreshold : Nat := 0xffff * 14 / 100

/-- Modelled from the spec: the default auto-select interval in seconds
(`kDefaultAutoSelectInterval`). -/
def kDefaultAutoSelectInterval : Nat := 10800

/-- Modelled from the spec: `Timer::kMaxDelay`, the longest delay in ms a
timer accepts (`MAX_TIMER_SECS = MsecToSec kMaxDelay`). -/
def kMaxDelay : Nat := 2 ^ 31 - 1

/-- Modelled from the spec: the owned one-shot millisecond timer
(spec interface: start(ms), start_at(start_ms, duration_ms), stop(),
is_running(), fire_time()). -/
structure TimerState where
  running : Bool
  startTime : Nat
  fireTime : Nat
deriving DecidableEq, Repr

/-- Modelled from the spec: `Timer::Start aDelay` arms the timer to fire
`aDelay` ms from now. -/
def TimerState.Start (_t : TimerState) (now aDelay : Nat) : TimerState :=
  { running := true, startTime := now, fireTime := now + aDelay }

/-- Modelled from the spec: `Timer::StartAt aStartTime aDelay` arms the
timer to fire at `aStartTime + aDelay`. -/
def TimerState.StartAt (_t : TimerState) (aStartTime aDelay : Nat) : TimerState :=
  { running := true, startTime := aStartTime, fireTime := aStartTime + aDelay }

/-- Modelled from the spec: `Timer::Stop`. -/
def TimerState.Stop (t : TimerState) : TimerState :=
  { t with running := false }

/-- Modelled from the spec: `Timer::IsRunning`. -/
def TimerState.IsRunning (t : TimerState) : Bool := t.running

/-- Modelled from the spec: `Timer::GetFireTime`. -/
def TimerState.GetFireTime (t : TimerState) : Nat := t.fireTime

/-- Modelled from the spec: the read-only collaborators of §6.2 — MAC
(current pan channel, supported mask, CCA failure rate), MLE
(`IsDisabled`), and the channel monitor (sample count, per-channel
occupancy, `FindBestChannels` returning the minimum-occupancy tie set as
a bitmask together with that occupancy, and the uniform random pick
`ChooseRandomChannel` from a tie set). -/
structure Env where
  panChannel : Nat
  macSupportedMask : Nat
  ccaFailureRate : Nat
  mleDisabled : Bool
  sampleCount : Nat
  channelOccupancy : Nat → Nat
  findBestChannels : Nat → Nat × Nat
  chooseRandomChannel : Nat → Nat

/-- Observable side effects of one operation: whether the outstanding
dataset update was cancelled (`DatasetUpdater::CancelUpdate`), whether the
`kEventChannelManagerNewChannelChanged` notifier event was signalled, and
the `{channel, delay_ms}` dataset handed to `DatasetUpdater::RequestUpdate`
when one was issued. -/
structure Effects where
  cancelUpdate : Bool := false
  signalNewChannel : Bool := false
  requestUpdate : Option (Nat × Nat) := none
deriving DecidableEq, Repr

/-- The channel manager's own fields, named as in the source. -/
structure ChannelManager where
  mSupportedChannelMask : Nat
  mFavoredChannelMask : Nat
  mDelay : Nat
  mChannel : Nat
  mState : CmState
  mTimer : TimerState
  mAutoSelectInterval : Nat
  mAutoSelectEnabled : Bool
deriving DecidableEq, Repr

/-- `ChannelManager::RequestChannelChange(aChannel)`: no-op when already
on `aChannel`; when a change to the same channel is in progress, no-op;
when a change to a different channel is in progress, cancel it; then move
to `kStateChangeRequested`, store the channel, start the jitter timer and
signal the notifier event. -/
def ChannelManager.RequestChannelChange (env : Env) (s : ChannelManager)
    (aChannel now jitter : Nat) : ChannelManager × Effects :=
  if aChannel = env.panChannel then (s, {})
  else if s.mState = CmState.kStateChangeInProgress ∧ s.mChannel = aChannel then (s, {})
  else
    ({ s with mState := CmState.kStateChangeRequested
            , mChannel := aChannel
            , mTimer := s.mTimer.Start now (1 + jitter) },
     { cancelUpdate := decide (s.mState = CmState.kStateChangeInProgress)
     , signalNewChannel := true })

/-- `ChannelManager::SetDelay(aDelay)`: reject values below
`kMinimumDelay` with `OT_ERROR_INVALID_ARGS`, otherwise store. -/
def ChannelManager.SetDelay (s : ChannelManager) (aDelay : Nat) :
    ChannelManager × OtError :=
  if kMinimumDelay ≤ aDelay then
    ({ s with mDelay := aDelay }, OtError.OT_ERROR_NONE)
  else (s, OtError.OT_ERROR_INVALID_ARGS)

/-- `ChannelManager::StartAutoSelectTimer`: no-op unless `kStateIdle`;
then start the timer for the auto-select interval when enabled, else stop
it. -/
def ChannelManager.StartAutoSelectTimer (s : ChannelManager) (now : Nat) :
    ChannelManager :=
  if s.mState = CmState.kStateIdle then
    if s.mAutoSelectEnabled then
      { s with mTimer := s.mTimer.Start now (SecToMsec s.mAutoSelectInterval) }
    else
      { s with mTimer := s.mTimer.Stop }
  else s

/-- `ChannelManager::StartDatasetUpdate`: issue a dataset update carrying
`{mChannel, SecToMsec mDelay}`; dispatch on the updater's immediate
result (`aUpdaterError`, an oracle input): `NONE` moves to
`kStateChangeInProgress`; `BUSY`/`NO_BUFS` start the retry timer;
anything else moves to `kStateIdle` and runs `StartAutoSelectTimer`. -/
def ChannelManager.StartDatasetUpdate (s : ChannelManager)
    (aUpdaterError : OtError) (now : Nat) : ChannelManager × Effects :=
  let dataset : Option (Nat × Nat) := some (s.mChannel, SecToMsec s.mDelay)
  match aUpdaterError with
  | OtError.OT_ERROR_NONE =>
      ({ s with mState := CmState.kStateChangeInProgress },
       { requestUpdate := dataset })
  | OtError.OT_ERROR_BUSY =>
      ({ s with mTimer := s.mTimer.Start now kPendingDatasetTxRetryInterval },
       { requestUpdate := dataset })
  | OtError.OT_ERROR_NO_BUFS =>
      ({ s with mTimer := s.mTimer.Start now kPendingDatasetTxRetryInterval },
       { requestUpdate := dataset })
  | _ =>
      (ChannelManager.StartAutoSelectTimer
        { s with mState := CmState.kStateIdle } now,
       { requestUpdate := dataset })

/-- `ChannelManager::HandleDatasetUpdateDone`: regardless of the result,
return to `kStateIdle` and run `StartAutoSelectTimer`. -/
def ChannelManager.HandleDatasetUpdateDone (s : ChannelManager) (now : Nat) :
    ChannelManager :=
  ChannelManager.StartAutoSelectTimer
    { s with mState := CmState.kStateIdle } now

/-- `ChannelManager::FindBetterChannel`: fail with `INVALID_STATE` on too
few monitor samples; find the best favored-and-supported tie set and the
best supported tie set; prefer favored unless it is empty or worse than
overall by at least `kThresholdToSkipFavored`; fail with `NOT_FOUND` on an
empty chosen set, else pick a random channel from it. -/
def ChannelManager.FindBetterChannel (env : Env) (s : ChannelManager) :
    Except OtError (Nat × Nat) :=
  if env.sampleCount ≤ kMinChannelMonitorSampleCount then
    Except.error OtError.OT_ERROR_INVALID_STATE
  else
    let favoredAndSupported := Nat.land s.mFavoredChannelMask s.mSupportedChannelMask
    let fav := env.findBestChannels favoredAndSupported
    let sup := env.findBestChannels s.mSupportedChannelMask
    let chosen :=
      if fav.1 = 0 ∨ (kThresholdToSkipFavored ≤ fav.2 ∧
          sup.2 < fav.2 - kThresholdToSkipFavored) then sup
      else fav
    if chosen.1 = 0 then Except.error OtError.OT_ERROR_NOT_FOUND
    else Except.ok (env.chooseRandomChannel chosen.1, chosen.2)

/-- `ChannelManager::ShouldAttemptChannelChange`: true iff the MAC's CCA
failure rate is at least `kCcaFailureRateThreshold`. -/
def ChannelManager.ShouldAttemptChannelChange (env : Env) : Bool :=
  decide (kCcaFailureRateThreshold ≤ env.ccaFailureRate)

/-- Result of `RequestChannelSelect`: the new manager state, the channel
passed to `RequestChannelChange` when that call was made, the side
effects, and the returned error. -/
structure SelectResult where
  st : ChannelManager
  requested : Option Nat := none
  eff : Effects := {}
  err : OtError := OtError.OT_ERROR_NONE
deriving DecidableEq, Repr

/-- `ChannelManager::RequestChannelSelect(aSkipQualityCheck)`: fail with
`INVALID_STATE` when MLE is disabled; silently succeed when the quality
check is not skipped and the CCA gate says no; run `FindBetterChannel`,
propagating its error; silently succeed when the candidate equals the
current channel or the occupancy improvement is below
`kThresholdToChangeChannel`; otherwise call `RequestChannelChange`. -/
def ChannelManager.RequestChannelSelect (env : Env) (s : ChannelManager)
    (aSkipQualityCheck : Bool) (now jitter : Nat) : SelectResult :=
  if env.mleDisabled then
    { st := s, err := OtError.OT_ERROR_INVALID_STATE }
  else if !(aSkipQualityCheck || ChannelManager.ShouldAttemptChannelChange env) then
    { st := s }
  else
    match ChannelManager.FindBetterChannel env s with
    | Except.error e => { st := s, err := e }
    | Except.ok (newChannel, newOccupancy) =>
      let curChannel := env.panChannel
      let curOccupancy := env.channelOccupancy curChannel
      if newChannel = curChannel then { st := s }
      else if curOccupancy ≤ newOccupancy ∨
          curOccupancy - newOccupancy < kThresholdToChangeChannel then
        { st := s }
      else
        let r := ChannelManager.RequestChannelChange env s newChannel now jitter
        { st := r.1, requested := some newChannel, eff := r.2 }

/-- `ChannelManager::HandleTimer`: from `kStateIdle` run an auto-triggered
selection then `StartAutoSelectTimer`; from `kStateChangeRequested` run
`StartDatasetUpdate`; from `kStateChangeInProgress` do nothing. -/
def ChannelManager.HandleTimer (env : Env) (s : ChannelManager)
    (aUpdaterError : OtError) (now jitter : Nat) : ChannelManager × Effects :=
  match s.mState with
  | CmState.kStateIdle =>
      let r := ChannelManager.RequestChannelSelect env s false now jitter
      (ChannelManager.StartAutoSelectTimer r.st now, r.eff)
  | CmState.kStateChangeRequested =>
      ChannelManager.StartDatasetUpdate s aUpdaterError now
  | CmState.kStateChangeInProgress => (s, {})

/-- `ChannelManager::SetAutoChannelSelectionEnabled(aEnabled)`: on a flag
change, store the flag, run `RequestChannelSelect false`, then
`StartAutoSelectTimer`; otherwise do nothing. -/
def ChannelManager.SetAutoChannelSelectionEnabled (env : Env)
    (s : ChannelManager) (aEnabled : Bool) (now jitter : Nat) :
    ChannelManager × Effects :=
  if aEnabled = s.mAutoSelectEnabled then (s, {})
  else
    let r := ChannelManager.RequestChannelSelect env
      { s with mAutoSelectEnabled := aEnabled } false now jitter
    (ChannelManager.StartAutoSelectTimer r.st now, r.eff)

/-- `ChannelManager::SetAutoChannelSelectionInterval(aInterval)`: reject 0
and values above `MsecToSec kMaxDelay` with `INVALID_ARGS`; store the
interval; when auto-select is enabled, the state is idle, the timer runs
and the interval changed, restart the timer at
`GetFireTime - SecToMsec prevInterval` for `SecToMsec aInterval`. -/
def ChannelManager.SetAutoChannelSelectionInterval (s : ChannelManager)
    (aInterval : Nat) : ChannelManager × OtError :=
  if aInterval = 0 ∨ MsecToSec kMaxDelay < aInterval then
    (s, OtError.OT_ERROR_INVALID_ARGS)
  else
    let prevInterval := s.mAutoSelectInterval
    let s1 := { s with mAutoSelectInterval := aInterval }
    if s.mAutoSelectEnabled = true ∧ s.mState = CmState.kStateIdle ∧
        s.mTimer.IsRunning = true ∧ prevInterval ≠ aInterval then
      ({ s1 with mTimer := (s1.mTimer.StartAt
            (s1.mTimer.GetFireTime - SecToMsec prevInterval)
            (SecToMsec aInterval)) },
       OtError.OT_ERROR_NONE)
    else (s1, OtError.OT_ERROR_NONE)

/-- `ChannelManager::SetSupportedChannels(aMask)`: store the intersection
with the MAC's supported mask. -/
def ChannelManager.SetSupportedChannels (env : Env) (s : ChannelManager)
    (aChannelMask : Nat) : ChannelManager :=
  { s with mSupportedChannelMask := Nat.land aChannelMask env.macSupportedMask }

/-- `ChannelManager::SetFavoredChannels(aMask)`: store the intersection
with the MAC's supported mask. -/
def ChannelManager.SetFavoredChannels (env : Env) (s : ChannelManager)
    (aChannelMask : Nat) : ChannelManager :=
  { s with mFavoredChannelMask := Nat.land aChannelMask env.macSupportedMask }

/-! Helper lemmas: the operations never touch `mDelay`. -/

theorem RequestChannelChange_mDelay (env : Env) (s : ChannelManager)
    (c now jitter : Nat) :
    (ChannelManager.RequestChannelChange env s c now jitter).1.mDelay = s.mDelay := by
  unfold ChannelManager.RequestChannelChange
  split_ifs <;> rfl

theorem StartAutoSelectTimer_mDelay (s : ChannelManager) (now : Nat) :
    (ChannelManager.StartAutoSelectTimer s now).mDelay = s.mDelay := by
  unfold ChannelManager.StartAutoSelectTimer
  split_ifs <;> rfl

theorem StartDatasetUpdate_mDelay (s : ChannelManager) (e : OtError) (now : Nat) :
    (ChannelManager.StartDatasetUpdate s e now).1.mDelay = s.mDelay := by
  unfold ChannelManager.StartDatasetUpdate
  cases e <;> simp [StartAutoSelectTimer_mDelay]

theorem RequestChannelSelect_mDelay (env : Env) (s : ChannelManager)
    (skip : Bool) (now jitter : Nat) :
    (ChannelManager.RequestChannelSelect env s skip now jitter).st.mDelay = s.mDelay := by
  unfold ChannelManager.RequestChannelSelect
  split_ifs <;> try rfl
  split <;> try rfl
  dsimp only
  split_ifs <;> simp [RequestChannelChange_mDelay]

theorem SetAutoChannelSelectionEnabled_mDelay (env : Env) (s : ChannelManager)
    (b : Bool) (now jitter : Nat) :
    (ChannelManager.SetAutoChannelSelectionEnabled env s b now jitter).1.mDelay =
      s.mDelay := by
  unfold ChannelManager.SetAutoChannelSelectionEnabled
  split_ifs <;>
    simp [StartAutoSelectTimer_mDelay, RequestChannelSelect_mDelay]

theorem SetAutoChannelSelectionInterval_mDelay (s : ChannelManager) (i : Nat) :
    (ChannelManager.SetAutoChannelSelectionInterval s i).1.mDelay = s.mDelay := by
  unfold ChannelManager.SetAutoChannelSelectionInterval
  dsimp only
  split_ifs <;> rfl

theorem HandleTimer_mDelay (env : Env) (s : ChannelManager) (e : OtError)
    (now jitter : Nat) :
    (ChannelManager.HandleTimer env s e now jitter).1.mDelay = s.mDelay := by
  unfold ChannelManager.HandleTimer
  cases h : s.mState <;>
    simp [StartAutoSelectTimer_mDelay, RequestChannelSelect_mDelay,
      StartDatasetUpdate_mDelay]

theorem HandleDatasetUpdateDone_mDelay (s : ChannelManager) (now : Nat) :
    (ChannelManager.HandleDatasetUpdateDone s now).mDelay = s.mDelay := by
  unfold ChannelManager.HandleDatasetUpdateDone
  simp [StartAutoSelectTimer_mDelay]

/-- C8: a `RequestChannelChange` call with the MAC's current pan channel is
a no-op returning success: the state machine state, target channel, stored
configuration and timer are unchanged, no dataset update is issued or
cancelled, and no notifier event is signalled. -/
theorem C8_request_current_channel_noop (env : Env) (s : ChannelManager)
    (c now jitter : Nat) (h : c = env.panChannel) :
    ChannelManager.RequestChannelChange env s c now jitter = (s, {}) := by
  unfold ChannelManager.RequestChannelChange
  simp [h]

/-- Witness for C8 at a concrete environment and state. -/
theorem C8_request_current_channel_noop_witness :
    (11 : Nat) = (⟨11, 0x7fff800, 0x4000, false, 1000, fun _ => 0x8000,
        fun m => (Nat.land m 0x1000000, 0x100), fun _ => 24⟩ : Env).panChannel ∧
    ChannelManager.RequestChannelChange
      ⟨11, 0x7fff800, 0x4000, false, 1000, fun _ => 0x8000,
        fun m => (Nat.land m 0x1000000, 0x100), fun _ => 24⟩
      ⟨0x3fff800, 0x1800000, 120, 0, CmState.kStateIdle, ⟨false, 0, 0⟩, 3600, false⟩
      11 0 0 =
      (⟨0x3fff800, 0x1800000, 120, 0, CmState.kStateIdle, ⟨false, 0, 0⟩, 3600, false⟩,
       {}) :=
  ⟨rfl, C8_request_current_channel_noop _ _ 11 0 0 rfl⟩

/-- C9: `SetDelay` rejects values below `kMinimumDelay` with
`OT_ERROR_INVALID_ARGS` leaving the stored delay unchanged, otherwise
stores the value and succeeds; every dataset update issued from a state
carrying that delay uses its `SecToMsec` conversion together with the
stored target channel, and no other operation ever modifies the stored
delay. -/
theorem C9_set_delay (s : ChannelManager) (d : Nat) :
    (d < kMinimumDelay →
      ChannelManager.SetDelay s d = (s, OtError.OT_ERROR_INVALID_ARGS)) ∧
    (kMinimumDelay ≤ d →
      ChannelManager.SetDelay s d =
        ({ s with mDelay := d }, OtError.OT_ERROR_NONE)) ∧
    (∀ (s' : ChannelManager) (e : OtError) (now : Nat), s'.mDelay = d →
      (ChannelManager.StartDatasetUpdate s' e now).2.requestUpdate =
        some (s'.mChannel, SecToMsec d)) ∧
    (∀ (env : Env) (s' : ChannelManager) (b : Bool) (e : OtError)
        (c i now jitter : Nat),
      (ChannelManager.RequestChannelChange env s' c now jitter).1.mDelay = s'.mDelay ∧
      (ChannelManager.StartDatasetUpdate s' e now).1.mDelay = s'.mDelay ∧
      (ChannelManager.RequestChannelSelect env s' b now jitter).st.mDelay = s'.mDelay ∧
      (ChannelManager.HandleTimer env s' e now jitter).1.mDelay = s'.mDelay ∧
      (ChannelManager.SetAutoChannelSelectionEnabled env s' b now jitter).1.mDelay
          = s'.mDelay ∧
      (ChannelManager.SetAutoChannelSelectionInterval s' i).1.mDelay = s'.mDelay ∧
      (ChannelManager.StartAutoSelectTimer s' now).mDelay = s'.mDelay ∧
      (ChannelManager.HandleDatasetUpdateDone s' now).mDelay = s'.mDelay ∧
      (ChannelManager.SetSupportedChannels env s' c).mDelay = s'.mDelay ∧
      (ChannelManager.SetFavoredChannels env s' c).mDelay = s'.mDelay) := by
  refine ⟨?_, ?_, ?_, ?_⟩
  · intro hd
    unfold ChannelManager.SetDelay
    simp [Nat.not_le.mpr hd]
  · intro hd
    unfold ChannelManager.SetDelay
    simp [hd]
  · intro s' e now h
    unfold ChannelManager.StartDatasetUpdate
    cases e <;> simp [h]
  · intro env s' b e c i now jitter
    exact ⟨RequestChannelChange_mDelay env s' c now jitter,
      StartDatasetUpdate_mDelay s' e now,
      RequestChannelSelect_mDelay env s' b now jitter,
      HandleTimer_mDelay env s' e now jitter,
      SetAutoChannelSelectionEnabled_mDelay env s' b now jitter,
      SetAutoChannelSelectionInterval_mDelay s' i,
      StartAutoSelectTimer_mDelay s' now,
      HandleDatasetUpdateDone_mDelay s' now, rfl, rfl⟩

/-- Witness for C9 at a concrete state and delay value. -/
theorem C9_set_delay_witness :
    kMinimumDelay ≤ 200 ∧
    ChannelManager.SetDelay
      ⟨0x3fff800, 0x1800000, 120, 0, CmState.kStateIdle, ⟨false, 0, 0⟩, 3600, false⟩
      200 =
      (⟨0x3fff800, 0x1800000, 200, 0, CmState.kStateIdle, ⟨false, 0, 0⟩, 3600, false⟩,
       OtError.OT_ERROR_NONE) :=
  ⟨by decide,
   (C9_set_delay
     ⟨0x3fff800, 0x1800000, 120, 0, CmState.kStateIdle, ⟨false, 0, 0⟩, 3600, false⟩
     200).2.1 (by decide)⟩

/-- C3: a dataset update issued on a timer fire from
`kStateChangeRequested` transitions on the updater's immediate result:
success moves to `kStateChangeInProgress`; busy or no-bufs leave the state
at `kStateChangeRequested` and arm the timer for
`kPendingDatasetTxRetryInterval`; invalid-state or any other error moves
to `kStateIdle` and runs the auto-select timer management, which arms the
timer for the auto interval when auto-select is enabled and stops it
otherwise. -/
theorem C3_dataset_update_transitions (s : ChannelManager) (e : OtError)
    (now : Nat) (hstate : s.mState = CmState.kStateChangeRequested) :
    (ChannelManager.StartDatasetUpdate s OtError.OT_ERROR_NONE now).1.mState =
        CmState.kStateChangeInProgress ∧
    ((e = OtError.OT_ERROR_BUSY ∨ e = OtError.OT_ERROR_NO_BUFS) →
      (ChannelManager.StartDatasetUpdate s e now).1.mState =
          CmState.kStateChangeRequested ∧
      (ChannelManager.StartDatasetUpdate s e now).1.mTimer =
          s.mTimer.Start now kPendingDatasetTxRetryInterval) ∧
    (e ≠ OtError.OT_ERROR_NONE → e ≠ OtError.OT_ERROR_BUSY →
      e ≠ OtError.OT_ERROR_NO_BUFS →
      ChannelManager.StartDatasetUpdate s e now =
        (ChannelManager.StartAutoSelectTimer
            { s with mState := CmState.kStateIdle } now,
         { requestUpdate := some (s.mChannel, SecToMsec s.mDelay) }) ∧
      (ChannelManager.StartDatasetUpdate s e now).1.mState =
          CmState.kStateIdle ∧
      (ChannelManager.StartDatasetUpdate s e now).1.mTimer =
        (if s.mAutoSelectEnabled then
           s.mTimer.Start now (SecToMsec s.mAutoSelectInterval)
         else s.mTimer.Stop)) := by
  refine ⟨rfl, ?_, ?_⟩
  · rintro (rfl | rfl) <;> exact ⟨hstate, rfl⟩
  · intro h1 h2 h3
    cases e <;> try simp at h1 h2 h3
    all_goals
      refine ⟨rfl, ?_, ?_⟩ <;>
        unfold ChannelManager.StartDatasetUpdate ChannelManager.StartAutoSelectTimer <;>
        by_cases hen : s.mAutoSelectEnabled = true <;>
        simp [hen]

/-- Witness for C3 at a concrete state with a busy updater. -/
theorem C3_dataset_update_transitions_witness :
    (⟨0x3fff800, 0x1800000, 120, 15, CmState.kStateChangeRequested,
        ⟨true, 0, 100⟩, 3600, true⟩ : ChannelManager).mState =
      CmState.kStateChangeRequested ∧
    (ChannelManager.StartDatasetUpdate
      ⟨0x3fff800, 0x1800000, 120, 15, CmState.kStateChangeRequested,
        ⟨true, 0, 100⟩, 3600, true⟩
      OtError.OT_ERROR_BUSY 5).1.mState = CmState.kStateChangeRequested :=
  ⟨rfl,
   ((C3_dataset_update_transitions
      ⟨0x3fff800, 0x1800000, 120, 15, CmState.kStateChangeRequested,
        ⟨true, 0, 100⟩, 3600, true⟩
      OtError.OT_ERROR_BUSY 5 rfl).2.1 (Or.inl rfl)).1⟩

theorem SetAutoChannelSelectionInterval_interval (s : ChannelManager) (i : Nat)
    (hv : ¬(i = 0 ∨ MsecToSec kMaxDelay < i)) :
    (ChannelManager.SetAutoChannelSelectionInterval s i).1.mAutoSelectInterval = i := by
  unfold ChannelManager.SetAutoChannelSelectionInterval
  rw [if_neg hv]
  dsimp only
  split_ifs <;> rfl

theorem SetAutoChannelSelectionInterval_err (s : ChannelManager) (i : Nat)
    (hv : ¬(i = 0 ∨ MsecToSec kMaxDelay < i)) :
    (ChannelManager.SetAutoChannelSelectionInterval s i).2 = OtError.OT_ERROR_NONE := by
  unfold ChannelManager.SetAutoChannelSelectionInterval
  rw [if_neg hv]
  dsimp only
  split_ifs <;> rfl

theorem ChannelManager_eta_interval (r : ChannelManager) (i : Nat)
    (h : r.mAutoSelectInterval = i) :
    ({ r with mAutoSelectInterval := i } : ChannelManager) = r := by
  cases r
  subst h
  rfl

theorem SetAutoChannelSelectionInterval_noRearm (s : ChannelManager) (i : Nat)
    (hv : ¬(i = 0 ∨ MsecToSec kMaxDelay < i)) (h : s.mAutoSelectInterval = i) :
    ChannelManager.SetAutoChannelSelectionInterval s i =
      ({ s with mAutoSelectInterval := i }, OtError.OT_ERROR_NONE) := by
  unfold ChannelManager.SetAutoChannelSelectionInterval
  rw [if_neg hv]
  dsimp only
  rw [if_neg (fun hc => (hc.2.2.2) h)]

/-- C6: `SetAutoChannelSelectionInterval` rejects values outside
`[1, MsecToSec kMaxDelay]` with `OT_ERROR_INVALID_ARGS` changing nothing;
otherwise it stores the interval and, when auto-select is enabled, the
state is idle, the timer is running and the interval changed, it
reschedules the timer so the new fire time is the timer's original start
time plus the new interval. -/
theorem C6_set_auto_interval (s : ChannelManager) (i : Nat) :
    ((i = 0 ∨ MsecToSec kMaxDelay < i) →
      ChannelManager.SetAutoChannelSelectionInterval s i =
        (s, OtError.OT_ERROR_INVALID_ARGS)) ∧
    (1 ≤ i → i ≤ MsecToSec kMaxDelay →
      (ChannelManager.SetAutoChannelSelectionInterval s i).2 =
          OtError.OT_ERROR_NONE ∧
      (ChannelManager.SetAutoChannelSelectionInterval s i).1.mAutoSelectInterval
          = i ∧
      (s.mAutoSelectEnabled = true → s.mState = CmState.kStateIdle →
        s.mTimer.IsRunning = true → i ≠ s.mAutoSelectInterval →
        s.mTimer.fireTime = s.mTimer.startTime + SecToMsec s.mAutoSelectInterval →
        (ChannelManager.SetAutoChannelSelectionInterval s i).1.mTimer.fireTime =
          s.mTimer.startTime + SecToMsec i)) := by
  constructor
  · intro h
    unfold ChannelManager.SetAutoChannelSelectionInterval
    rw [if_pos h]
  · intro h1 h2
    have hv : ¬(i = 0 ∨ MsecToSec kMaxDelay < i) :=
      not_or.mpr ⟨by omega, Nat.not_lt.mpr h2⟩
    refine ⟨SetAutoChannelSelectionInterval_err s i hv,
      SetAutoChannelSelectionInterval_interval s i hv, ?_⟩
    intro he hi hr hne h5
    unfold ChannelManager.SetAutoChannelSelectionInterval
    rw [if_neg hv]
    dsimp only
    rw [if_pos ⟨he, hi, hr, fun hpe => hne hpe.symm⟩]
    simp [TimerState.StartAt, TimerState.GetFireTime, h5, Nat.add_sub_cancel]

/-- Witness for C6: scenario 6 of the spec, interval 3600 rescheduled to
7200 at a later time; the new fire time is measured from the original
start. -/
theorem C6_set_auto_interval_witness :
    (1 ≤ 7200 ∧ 7200 ≤ MsecToSec kMaxDelay) ∧
    (ChannelManager.SetAutoChannelSelectionInterval
      ⟨0x3fff800, 0x1800000, 120, 0, CmState.kStateIdle, ⟨true, 0, 3600000⟩,
        3600, true⟩ 7200).1.mTimer.fireTime = 7200000 := by
  refine ⟨⟨by decide, by decide⟩, ?_⟩
  have h := ((C6_set_auto_interval
    ⟨0x3fff800, 0x1800000, 120, 0, CmState.kStateIdle, ⟨true, 0, 3600000⟩,
      3600, true⟩ 7200).2 (by decide) (by decide)).2.2
    rfl rfl rfl (by decide) (by decide)
  exact h.trans (by decide)

/-- C7: calling `SetAutoChannelSelectionInterval` twice with the same
value equals calling it once, and a call whose value equals the stored
interval, or made while the timer is not running, never re-arms or
restarts the timer. -/
theorem C7_set_auto_interval_idempotent (s : ChannelManager) (i : Nat) :
    ChannelManager.SetAutoChannelSelectionInterval
        (ChannelManager.SetAutoChannelSelectionInterval s i).1 i =
      ChannelManager.SetAutoChannelSelectionInterval s i ∧
    (i = s.mAutoSelectInterval →
      (ChannelManager.SetAutoChannelSelectionInterval s i).1.mTimer = s.mTimer) ∧
    (s.mTimer.IsRunning = false →
      (ChannelManager.SetAutoChannelSelectionInterval s i).1.mTimer = s.mTimer) := by
  refine ⟨?_, ?_, ?_⟩
  · by_cases hv : (i = 0 ∨ MsecToSec kMaxDelay < i)
    · unfold ChannelManager.SetAutoChannelSelectionInterval
      simp [hv]
    · rw [SetAutoChannelSelectionInterval_noRearm
        (ChannelManager.SetAutoChannelSelectionInterval s i).1 i hv
        (SetAutoChannelSelectionInterval_interval s i hv)]
      rw [← SetAutoChannelSelectionInterval_err s i hv]
      rw [ChannelManager_eta_interval
        (ChannelManager.SetAutoChannelSelectionInterval s i).1 i
        (SetAutoChannelSelectionInterval_interval s i hv)]
  · intro h
    by_cases hv : (i = 0 ∨ MsecToSec kMaxDelay < i)
    · unfold ChannelManager.SetAutoChannelSelectionInterval
      simp [hv]
    · rw [SetAutoChannelSelectionInterval_noRearm s i hv h.symm]
  · intro h
    by_cases hv : (i = 0 ∨ MsecToSec kMaxDelay < i)
    · unfold ChannelManager.SetAutoChannelSelectionInterval
      simp [hv]
    · unfold ChannelManager.SetAutoChannelSelectionInterval
      rw [if_neg hv]
      dsimp only
      rw [if_neg (fun hc => Bool.noConfusion (h ▸ hc.2.2.1))]

/-- Witness for C7 at a concrete state whose stored interval equals the
argument. -/
theorem C7_set_auto_interval_idempotent_witness :
    (3600 : Nat) =
      (⟨0x3fff800, 0x1800000, 120, 0, CmState.kStateIdle, ⟨true, 0, 3600000⟩,
        3600, true⟩ : ChannelManager).mAutoSelectInterval ∧
    (ChannelManager.SetAutoChannelSelectionInterval
      ⟨0x3fff800, 0x1800000, 120, 0, CmState.kStateIdle, ⟨true, 0, 3600000⟩,
        3600, true⟩ 3600).1.mTimer = (⟨true, 0, 3600000⟩ : TimerState) :=
  ⟨rfl,
   (C7_set_auto_interval_idempotent
     ⟨0x3fff800, 0x1800000, 120, 0, CmState.kStateIdle, ⟨true, 0, 3600000⟩,
       3600, true⟩ 3600).2.1 rfl⟩

/-- C1: with sufficient monitor samples, `FindBetterChannel` prefers the
best favored-and-supported tie set over the best supported tie set unless
the favored set is empty, or the favored occupancy is at least
`kThresholdToSkipFavored` and the overall occupancy is below the favored
occupancy minus that threshold; in the latter cases it uses the overall
set and its occupancy, and the returned candidate is drawn from the chosen
set, paired with that set's occupancy value. -/
theorem C1_find_better_channel_policy (env : Env) (s : ChannelManager)
    (hs : kMinChannelMonitorSampleCount < env.sampleCount) :
    ChannelManager.FindBetterChannel env s =
      (if (env.findBestChannels
            (Nat.land s.mFavoredChannelMask s.mSupportedChannelMask)).1 = 0 ∨
          (kThresholdToSkipFavored ≤
              (env.findBestChannels
                (Nat.land s.mFavoredChannelMask s.mSupportedChannelMask)).2 ∧
            (env.findBestChannels s.mSupportedChannelMask).2 <
              (env.findBestChannels
                  (Nat.land s.mFavoredChannelMask s.mSupportedChannelMask)).2 -
                kThresholdToSkipFavored) then
        (if (env.findBestChannels s.mSupportedChannelMask).1 = 0 then
           Except.error OtError.OT_ERROR_NOT_FOUND
         else
           Except.ok
             (env.chooseRandomChannel
               (env.findBestChannels s.mSupportedChannelMask).1,
              (env.findBestChannels s.mSupportedChannelMask).2))
       else
         Except.ok
           (env.chooseRandomChannel
             (env.findBestChannels
               (Nat.land s.mFavoredChannelMask s.mSupportedChannelMask)).1,
            (env.findBestChannels
              (Nat.land s.mFavoredChannelMask s.mSupportedChannelMask)).2)) := by
  unfold ChannelManager.FindBetterChannel
  rw [if_neg (Nat.not_le.mpr hs)]
  dsimp only
  by_cases hc : (env.findBestChannels
        (Nat.land s.mFavoredChannelMask s.mSupportedChannelMask)).1 = 0 ∨
      (kThresholdToSkipFavored ≤
          (env.findBestChannels
            (Nat.land s.mFavoredChannelMask s.mSupportedChannelMask)).2 ∧
        (env.findBestChannels s.mSupportedChannelMask).2 <
          (env.findBestChannels
              (Nat.land s.mFavoredChannelMask s.mSupportedChannelMask)).2 -
            kThresholdToSkipFavored)
  · rw [if_pos hc, if_pos hc]
  · rw [if_neg hc, if_neg hc,
      if_neg (fun h => hc (Or.inl h))]

/-- Witness for C1 at a concrete environment where the favored tie set is
kept. -/
theorem C1_find_better_channel_policy_witness :
    kMinChannelMonitorSampleCount < 1000 ∧
    ChannelManager.FindBetterChannel
      ⟨11, 0x7fff800, 0x4000, false, 1000, fun _ => 0x8000,
        fun m => (Nat.land m 0x1000000, 0x100), fun _ => 24⟩
      ⟨0x3fff800, 0x1800000, 120, 0, CmState.kStateIdle, ⟨false, 0, 0⟩,
        3600, false⟩ = Except.ok (24, 0x100) :=
  ⟨by decide,
   (C1_find_better_channel_policy
     ⟨11, 0x7fff800, 0x4000, false, 1000, fun _ => 0x8000,
       fun m => (Nat.land m 0x1000000, 0x100), fun _ => 24⟩
     ⟨0x3fff800, 0x1800000, 120, 0, CmState.kStateIdle, ⟨false, 0, 0⟩,
       3600, false⟩ (by decide)).trans (by decide)⟩

/-- C2: in a `RequestChannelSelect` call in which the policy returns a
candidate, `RequestChannelChange` is invoked only if the candidate differs
from the MAC's current pan channel and the current occupancy exceeds the
candidate's by at least `kThresholdToChangeChannel`; when the candidate
occupancy is at least the current one, or the difference is below the
threshold, the call returns success with no state change and no request. -/
theorem C2_select_change_threshold (env : Env) (s : ChannelManager)
    (skip : Bool) (now jitter nc no : Nat)
    (hmle : env.mleDisabled = false)
    (hgate : (skip || ChannelManager.ShouldAttemptChannelChange env) = true)
    (hfind : ChannelManager.FindBetterChannel env s = Except.ok (nc, no)) :
    ((ChannelManager.RequestChannelSelect env s skip now jitter).requested ≠ none →
      nc ≠ env.panChannel ∧
      no < env.channelOccupancy env.panChannel ∧
      kThresholdToChangeChannel ≤ env.channelOccupancy env.panChannel - no) ∧
    ((env.channelOccupancy env.panChannel ≤ no ∨
        env.channelOccupancy env.panChannel - no < kThresholdToChangeChannel) →
      ChannelManager.RequestChannelSelect env s skip now jitter = { st := s }) := by
  unfold ChannelManager.RequestChannelSelect
  rw [if_neg (by simp [hmle]), if_neg (by simp [hgate]), hfind]
  dsimp only
  constructor
  · intro hreq
    by_cases h1 : nc = env.panChannel
    · rw [if_pos h1] at hreq
      exact absurd rfl hreq
    · rw [if_neg h1] at hreq
      by_cases h2 : env.channelOccupancy env.panChannel ≤ no ∨
          env.channelOccupancy env.panChannel - no < kThresholdToChangeChannel
      · rw [if_pos h2] at hreq
        exact absurd rfl hreq
      · push_neg at h2
        exact ⟨h1, h2.1, h2.2⟩
  · intro h2
    by_cases h1 : nc = env.panChannel
    · rw [if_pos h1]
    · rw [if_neg h1, if_pos h2]

/-- Witness for C2 at a concrete environment where the improvement is too
small to change. -/
theorem C2_select_change_threshold_witness :
    ((⟨11, 0x7fff800, 0x4000, false, 1000, fun _ => 0x8000,
        fun m => (Nat.land m 0x1000000, 0x7000), fun _ => 24⟩ : Env).mleDisabled
        = false) ∧
    ChannelManager.FindBetterChannel
      ⟨11, 0x7fff800, 0x4000, false, 1000, fun _ => 0x8000,
        fun m => (Nat.land m 0x1000000, 0x7000), fun _ => 24⟩
      ⟨0x3fff800, 0x1800000, 120, 0, CmState.kStateIdle, ⟨false, 0, 0⟩,
        3600, false⟩ = Except.ok (24, 0x7000) ∧
    ChannelManager.RequestChannelSelect
      ⟨11, 0x7fff800, 0x4000, false, 1000, fun _ => 0x8000,
        fun m => (Nat.land m 0x1000000, 0x7000), fun _ => 24⟩
      ⟨0x3fff800, 0x1800000, 120, 0, CmState.kStateIdle, ⟨false, 0, 0⟩,
        3600, false⟩ true 0 0 =
      { st := ⟨0x3fff800, 0x1800000, 120, 0, CmState.kStateIdle, ⟨false, 0, 0⟩,
          3600, false⟩ } :=
  ⟨rfl, by decide,
   (C2_select_change_threshold
     ⟨11, 0x7fff800, 0x4000, false, 1000, fun _ => 0x8000,
       fun m => (Nat.land m 0x1000000, 0x7000), fun _ => 24⟩
     ⟨0x3fff800, 0x1800000, 120, 0, CmState.kStateIdle, ⟨false, 0, 0⟩,
       3600, false⟩ true 0 0 24 0x7000 rfl (by decide) (by decide)).2
     (by decide)⟩

/-- C4: `RequestChannelSelect` returns `INVALID_STATE` when MLE is
disabled; returns success without invoking the selection policy or
changing any state when the quality check is not skipped and the CCA
failure rate is below `kCcaFailureRateThreshold`;
`ShouldAttemptChannelChange` is true iff the rate is at least the
threshold; with the gate passed it returns `INVALID_STATE` when the
monitor's sample count is at most `kMinChannelMonitorSampleCount`, and
`NOT_FOUND` when the chosen candidate set is empty. -/
theorem C4_select_error_paths (env : Env) (s : ChannelManager)
    (skip : Bool) (now jitter : Nat) :
    (env.mleDisabled = true →
      ChannelManager.RequestChannelSelect env s skip now jitter =
        { st := s, err := OtError.OT_ERROR_INVALID_STATE }) ∧
    (env.mleDisabled = false → skip = false →
      env.ccaFailureRate < kCcaFailureRateThreshold →
      ChannelManager.RequestChannelSelect env s skip now jitter = { st := s }) ∧
    (ChannelManager.ShouldAttemptChannelChange env = true ↔
      kCcaFailureRateThreshold ≤ env.ccaFailureRate) ∧
    (env.mleDisabled = false →
      (skip || ChannelManager.ShouldAttemptChannelChange env) = true →
      env.sampleCount ≤ kMinChannelMonitorSampleCount →
      ChannelManager.RequestChannelSelect env s skip now jitter =
        { st := s, err := OtError.OT_ERROR_INVALID_STATE }) ∧
    (env.mleDisabled = false →
      (skip || ChannelManager.ShouldAttemptChannelChange env) = true →
      ChannelManager.FindBetterChannel env s =
          Except.error OtError.OT_ERROR_NOT_FOUND →
      ChannelManager.RequestChannelSelect env s skip now jitter =
        { st := s, err := OtError.OT_ERROR_NOT_FOUND }) := by
  refine ⟨?_, ?_, ?_, ?_, ?_⟩
  · intro h
    unfold ChannelManager.RequestChannelSelect
    rw [if_pos h]
  · intro h1 h2 h3
    have hS : ChannelManager.ShouldAttemptChannelChange env = false := by
      unfold ChannelManager.ShouldAttemptChannelChange
      simp [Nat.not_le.mpr h3]
    unfold ChannelManager.RequestChannelSelect
    rw [if_neg (by simp [h1]), if_pos (by simp [h2, hS])]
  · unfold ChannelManager.ShouldAttemptChannelChange
    simp
  · intro h1 h2 h3
    have hf : ChannelManager.FindBetterChannel env s =
        Except.error OtError.OT_ERROR_INVALID_STATE := by
      unfold ChannelManager.FindBetterChannel
      rw [if_pos h3]
    unfold ChannelManager.RequestChannelSelect
    rw [if_neg (by simp [h1]), if_neg (by simp [h2]), hf]
  · intro h1 h2 hf
    unfold ChannelManager.RequestChannelSelect
    rw [if_neg (by simp [h1]), if_neg (by simp [h2]), hf]

/-- Witness for C4 with MLE disabled at a concrete environment. -/
theorem C4_select_error_paths_witness :
    ((⟨11, 0x7fff800, 0x4000, true, 1000, fun _ => 0x8000,
        fun m => (Nat.land m 0x1000000, 0x100), fun _ => 24⟩ : Env).mleDisabled
        = true) ∧
    ChannelManager.RequestChannelSelect
      ⟨11, 0x7fff800, 0x4000, true, 1000, fun _ => 0x8000,
        fun m => (Nat.land m 0x1000000, 0x100), fun _ => 24⟩
      ⟨0x3fff800, 0x1800000, 120, 0, CmState.kStateIdle, ⟨false, 0, 0⟩,
        3600, false⟩ false 0 0 =
      { st := ⟨0x3fff800, 0x1800000, 120, 0, CmState.kStateIdle, ⟨false, 0, 0⟩,
          3600, false⟩, err := OtError.OT_ERROR_INVALID_STATE } :=
  ⟨rfl,
   (C4_select_error_paths
     ⟨11, 0x7fff800, 0x4000, true, 1000, fun _ => 0x8000,
       fun m => (Nat.land m 0x1000000, 0x100), fun _ => 24⟩
     ⟨0x3fff800, 0x1800000, 120, 0, CmState.kStateIdle, ⟨false, 0, 0⟩,
       3600, false⟩ false 0 0).1 rfl⟩

theorem testBit_of_land_eq {a b : Nat} (h : Nat.land a b = a) {i : Nat}
    (hi : Nat.testBit a i = true) : Nat.testBit b i = true := by
  have hl : a &&& b = a := h
  have h2 := congrArg (fun x => Nat.testBit x i) hl
  simp only [Nat.testBit_land, hi, Bool.true_and] at h2
  exact h2

theorem testBit_land_right {a b i : Nat}
    (h : Nat.testBit (Nat.land a b) i = true) : Nat.testBit b i = true := by
  have h2 : (a &&& b).testBit i = true := h
  simp only [Nat.testBit_land, Bool.and_eq_true] at h2
  exact h2.2

/-- C10: whenever the selection policy returns a candidate channel, that
channel lies in `mSupportedChannelMask`, given that `FindBestChannels`
returns a subset of its mask argument (for the two masks it is called on)
and that a uniform random pick from a nonempty channel set is a member of
that set. -/
theorem C10_selection_within_supported (env : Env) (s : ChannelManager)
    (c o : Nat)
    (hsubF : Nat.land
        (env.findBestChannels
          (Nat.land s.mFavoredChannelMask s.mSupportedChannelMask)).1
        (Nat.land s.mFavoredChannelMask s.mSupportedChannelMask) =
      (env.findBestChannels
        (Nat.land s.mFavoredChannelMask s.mSupportedChannelMask)).1)
    (hsubS : Nat.land (env.findBestChannels s.mSupportedChannelMask).1
        s.mSupportedChannelMask =
      (env.findBestChannels s.mSupportedChannelMask).1)
    (hpickF : (env.findBestChannels
        (Nat.land s.mFavoredChannelMask s.mSupportedChannelMask)).1 ≠ 0 →
      Nat.testBit
        (env.findBestChannels
          (Nat.land s.mFavoredChannelMask s.mSupportedChannelMask)).1
        (env.chooseRandomChannel
          (env.findBestChannels
            (Nat.land s.mFavoredChannelMask s.mSupportedChannelMask)).1) = true)
    (hpickS : (env.findBestChannels s.mSupportedChannelMask).1 ≠ 0 →
      Nat.testBit (env.findBestChannels s.mSupportedChannelMask).1
        (env.chooseRandomChannel
          (env.findBestChannels s.mSupportedChannelMask).1) = true)
    (hfind : ChannelManager.FindBetterChannel env s = Except.ok (c, o)) :
    Nat.testBit s.mSupportedChannelMask c = true := by
  unfold ChannelManager.FindBetterChannel at hfind
  by_cases hs : env.sampleCount ≤ kMinChannelMonitorSampleCount
  · rw [if_pos hs] at hfind
    exact Except.noConfusion hfind
  · rw [if_neg hs] at hfind
    dsimp only at hfind
    by_cases hc : (env.findBestChannels
          (Nat.land s.mFavoredChannelMask s.mSupportedChannelMask)).1 = 0 ∨
        (kThresholdToSkipFavored ≤
            (env.findBestChannels
              (Nat.land s.mFavoredChannelMask s.mSupportedChannelMask)).2 ∧
          (env.findBestChannels s.mSupportedChannelMask).2 <
            (env.findBestChannels
                (Nat.land s.mFavoredChannelMask s.mSupportedChannelMask)).2 -
              kThresholdToSkipFavored)
    · rw [if_pos hc] at hfind
      by_cases hz : (env.findBestChannels s.mSupportedChannelMask).1 = 0
      · rw [if_pos hz] at hfind
        exact Except.noConfusion hfind
      · rw [if_neg hz] at hfind
        simp only [Except.ok.injEq, Prod.mk.injEq] at hfind
        obtain ⟨h1, -⟩ := hfind
        subst h1
        exact testBit_of_land_eq hsubS (hpickS hz)
    · rw [if_neg hc] at hfind
      have hz : ¬((env.findBestChannels
          (Nat.land s.mFavoredChannelMask s.mSupportedChannelMask)).1 = 0) :=
        fun h => hc (Or.inl h)
      rw [if_neg hz] at hfind
      simp only [Except.ok.injEq, Prod.mk.injEq] at hfind
      obtain ⟨h1, -⟩ := hfind
      subst h1
      exact testBit_land_right (testBit_of_land_eq hsubF (hpickF hz))

/-- Witness for C10 at a concrete environment picking channel 24 from the
favored set. -/
theorem C10_selection_within_supported_witness :
    Nat.land
        ((fun m => (Nat.land m 0x1000000, (5 : Nat))) (Nat.land 0x1800000 0x3fff800)).1
        (Nat.land 0x1800000 0x3fff800) =
      ((fun m => (Nat.land m 0x1000000, (5 : Nat))) (Nat.land 0x1800000 0x3fff800)).1 ∧
    ChannelManager.FindBetterChannel
      ⟨11, 0x7fff800, 0x4000, false, 1000, fun _ => 0x8000,
        fun m => (Nat.land m 0x1000000, 5), fun _ => 24⟩
      ⟨0x3fff800, 0x1800000, 120, 0, CmState.kStateIdle, ⟨false, 0, 0⟩,
        3600, false⟩ = Except.ok (24, 5) ∧
    Nat.testBit 0x3fff800 24 = true :=
  ⟨by decide, by decide,
   C10_selection_within_supported
     ⟨11, 0x7fff800, 0x4000, false, 1000, fun _ => 0x8000,
       fun m => (Nat.land m 0x1000000, 5), fun _ => 24⟩
     ⟨0x3fff800, 0x1800000, 120, 0, CmState.kStateIdle, ⟨false, 0, 0⟩,
       3600, false⟩ 24 5 (by decide) (by decide) (by decide) (by decide)
     (by decide)⟩

theorem RequestChannelChange_mAutoSelectEnabled (env : Env) (s : ChannelManager)
    (c now jitter : Nat) :
    (ChannelManager.RequestChannelChange env s c now jitter).1.mAutoSelectEnabled =
      s.mAutoSelectEnabled := by
  unfold ChannelManager.RequestChannelChange
  split_ifs <;> rfl

theorem RequestChannelSelect_mAutoSelectEnabled (env : Env) (s : ChannelManager)
    (skip : Bool) (now jitter : Nat) :
    (ChannelManager.RequestChannelSelect env s skip now jitter).st.mAutoSelectEnabled =
      s.mAutoSelectEnabled := by
  unfold ChannelManager.RequestChannelSelect
  split_ifs <;> try rfl
  split <;> try rfl
  dsimp only
  split_ifs <;> simp [RequestChannelChange_mAutoSelectEnabled]

/-- Counterexample for C5: on the transition to disabled the code still
calls `RequestChannelSelect false`, so a selection IS attempted; at this
input the attempt requests a channel change (state becomes
`kStateChangeRequested`) and signals the notifier, while the claim says
disabling only stops the timer and attempts no selection. -/
theorem C5_counterexample :
    (ChannelManager.SetAutoChannelSelectionEnabled
      ⟨11, 0x7fff800, 0xffff, false, 1000, fun _ => 0xffff,
        fun m => (Nat.land m 0x1000000, 0), fun _ => 24⟩
      ⟨0x3fff800, 0x1800000, 120, 0, CmState.kStateIdle, ⟨true, 0, 3600000⟩,
        3600, true⟩ false 0 0).1.mState = CmState.kStateChangeRequested ∧
    (ChannelManager.SetAutoChannelSelectionEnabled
      ⟨11, 0x7fff800, 0xffff, false, 1000, fun _ => 0xffff,
        fun m => (Nat.land m 0x1000000, 0), fun _ => 24⟩
      ⟨0x3fff800, 0x1800000, 120, 0, CmState.kStateIdle, ⟨true, 0, 3600000⟩,
        3600, true⟩ false 0 0).2.signalNewChannel = true :=
  ⟨by decide, by decide⟩

/-- C5 (amended): `SetAutoChannelSelectionEnabled` changes behavior only
on a transition of the flag; on ANY transition — to enabled or to
disabled — it stores the flag, immediately attempts a selection (as a
timer fire from idle, CCA-gated), and then runs the auto-select timer
management: when the state is idle afterwards the timer is armed for the
auto interval if the flag is now enabled and stopped if now disabled,
and when a change is in flight the timer is left alone; a call that does
not change the flag has no effect. -/
theorem C5_auto_enable_transition (env : Env) (s : ChannelManager)
    (b : Bool) (now jitter : Nat) :
    (b = s.mAutoSelectEnabled →
      ChannelManager.SetAutoChannelSelectionEnabled env s b now jitter =
        (s, {})) ∧
    (b ≠ s.mAutoSelectEnabled →
      ChannelManager.SetAutoChannelSelectionEnabled env s b now jitter =
        (ChannelManager.StartAutoSelectTimer
          (ChannelManager.RequestChannelSelect env
            { s with mAutoSelectEnabled := b } false now jitter).st now,
         (ChannelManager.RequestChannelSelect env
           { s with mAutoSelectEnabled := b } false now jitter).eff)) ∧
    (b ≠ s.mAutoSelectEnabled →
      (ChannelManager.RequestChannelSelect env
          { s with mAutoSelectEnabled := b } false now jitter).st.mState =
        CmState.kStateIdle →
      (ChannelManager.SetAutoChannelSelectionEnabled env s b now jitter).1.mTimer =
        (if b then
          ((ChannelManager.RequestChannelSelect env
              { s with mAutoSelectEnabled := b } false now jitter).st.mTimer.Start
            now
            (SecToMsec (ChannelManager.RequestChannelSelect env
              { s with mAutoSelectEnabled := b } false now jitter).st.mAutoSelectInterval))
         else
          (ChannelManager.RequestChannelSelect env
            { s with mAutoSelectEnabled := b } false now jitter).st.mTimer.Stop)) ∧
    (b ≠ s.mAutoSelectEnabled →
      (ChannelManager.RequestChannelSelect env
          { s with mAutoSelectEnabled := b } false now jitter).st.mState ≠
        CmState.kStateIdle →
      (ChannelManager.SetAutoChannelSelectionEnabled env s b now jitter).1.mTimer =
        (ChannelManager.RequestChannelSelect env
          { s with mAutoSelectEnabled := b } false now jitter).st.mTimer) := by
  refine ⟨?_, ?_, ?_, ?_⟩
  · intro h
    unfold ChannelManager.SetAutoChannelSelectionEnabled
    rw [if_pos h]
  · intro h
    unfold ChannelManager.SetAutoChannelSelectionEnabled
    rw [if_neg h]
  · intro h hidle
    unfold ChannelManager.SetAutoChannelSelectionEnabled
    rw [if_neg h]
    dsimp only
    unfold ChannelManager.StartAutoSelectTimer
    rw [if_pos hidle]
    have hb : (ChannelManager.RequestChannelSelect env
        { s with mAutoSelectEnabled := b } false now jitter).st.mAutoSelectEnabled =
        b :=
      RequestChannelSelect_mAutoSelectEnabled env
        { s with mAutoSelectEnabled := b } false now jitter
    rw [hb]
    cases b <;> simp
  · intro h hni
    unfold ChannelManager.SetAutoChannelSelectionEnabled
    rw [if_neg h]
    dsimp only
    unfold ChannelManager.StartAutoSelectTimer
    rw [if_neg hni]

/-- Witness for C5 (amended) at a concrete input where the flag is
unchanged. -/
theorem C5_auto_enable_transition_witness :
    (false = (⟨0x3fff800, 0x1800000, 120, 0, CmState.kStateIdle, ⟨false, 0, 0⟩,
        3600, false⟩ : ChannelManager).mAutoSelectEnabled) ∧
    ChannelManager.SetAutoChannelSelectionEnabled
      ⟨11, 0x7fff800, 0x4000, false, 1000, fun _ => 0x8000,
        fun m => (Nat.land m 0x1000000, 0x100), fun _ => 24⟩
      ⟨0x3fff800, 0x1800000, 120, 0, CmState.kStateIdle, ⟨false, 0, 0⟩,
        3600, false⟩ false 0 0 =
      (⟨0x3fff800, 0x1800000, 120, 0, CmState.kStateIdle, ⟨false, 0, 0⟩,
        3600, false⟩, {}) :=
  ⟨rfl,
   (C5_auto_enable_transition
     ⟨11, 0x7fff800, 0x4000, false, 1000, fun _ => 0x8000,
       fun m => (Nat.land m 0x1000000, 0x100), fun _ => 24⟩
     ⟨0x3fff800, 0x1800000, 120, 0, CmState.kStateIdle, ⟨false, 0, 0⟩,
       3600, false⟩ false 0 0).1 rfl⟩
